import Mathlib

/-!
Shallow embedding of `torch/distributed/rpc/api.py` (the public RPC facade of
the repository) and proofs about its dispatch, lifecycle and teardown logic.

The module-level mutable globals of `api.py` (`_agent` and the liveness of the
RRef context and the python RPC handler) are modelled by `RpcModuleState`;
each public function becomes a pure function of that state.  Side effects that
the Python code performs through opaque extension primitives (sending a
builtin request, sending a pickled UDF, joining the agent, destroying the
RRef context, ...) are recorded in an ordered event trace of type `List Ev`,
so that statements about ordering and about what is (not) serialized or
waited on can be made precise.
-/

namespace TorchRpcApi

/-- Identity of one worker process (`WorkerInfo` from the C++ extension):
an id and a name. -/
structure WorkerInfo where
  id : Nat
  name : String
deriving DecidableEq, Repr

/-- A Python argument value as seen by the RPC layer: a tensor (identified by
the id of its binary buffer) or a non-tensor primitive. -/
inductive Value
  | tensor (buf : Nat)
  | num (n : Int)
  | str (s : String)
deriving DecidableEq, Repr

/-- A Python callable as seen by `api.py`.  `fid` identifies the function
object (what generic pickling would serialize); `builtinName` is the result
of `torch.jit._find_builtin` on it (`some qualified_name` for a builtin such
as `torch.add`, `none` otherwise); `isCallable` is Python's `callable(func)`. -/
structure Func where
  fid : Nat
  builtinName : Option String
  isCallable : Bool
deriving DecidableEq, Repr

/-- Modelled from the spec: `torch.jit._find_builtin` (external to the source
slice) resolves a function to its shared symbolic builtin tag, or `None`. -/
def _find_builtin (f : Func) : Option String :=
  f.builtinName

/-- A value inside the pickled stream after tensor extraction: tensors are
replaced by positional placeholders into the side-channel buffer list. -/
inductive WireVal
  | placeholder (idx : Nat)
  | num (n : Int)
  | str (s : String)
deriving DecidableEq, Repr

/-- Lift one value out of the generic stream: a tensor becomes a positional
placeholder and its buffer is appended to the ordered side-channel list. -/
def liftValue (v : Value) (tensors : List Nat) : WireVal × List Nat :=
  match v with
  | .tensor b => (.placeholder tensors.length, tensors ++ [b])
  | .num n => (.num n, tensors)
  | .str s => (.str s, tensors)

/-- Lift a list of positional arguments, threading the side-channel list. -/
def liftArgs : List Value → List Nat → List WireVal × List Nat
  | [], tensors => ([], tensors)
  | v :: vs, tensors =>
      let (w, tensors1) := liftValue v tensors
      let (ws, tensors2) := liftArgs vs tensors1
      (w :: ws, tensors2)

/-- Lift keyword arguments, threading the side-channel list. -/
def liftKwargs : List (String × Value) → List Nat → List (String × WireVal) × List Nat
  | [], tensors => ([], tensors)
  | (key, v) :: ps, tensors =>
      let (w, tensors1) := liftValue v tensors
      let (ws, tensors2) := liftKwargs ps tensors1
      ((key, w) :: ws, tensors2)

/-- The tensor buffers of a value list, in order (specification helper). -/
def tensorBuffers (vs : List Value) : List Nat :=
  vs.filterMap fun v =>
    match v with
    | .tensor b => some b
    | _ => none

/-- Embeds `PythonUDF(func, args, kwargs)` from `rpc/internal.py`: the user function
together with its arguments, as handed to the RPC pickler. -/
structure PythonUDF where
  func : Func
  args : List Value
  kwargs : List (String × Value)
deriving DecidableEq, Repr

/-- The pickled envelope produced for a `PythonUDF`: the serialized callable
and the argument streams with tensors replaced by placeholders. -/
structure SerializedUdf where
  funcBlob : Nat
  wireArgs : List WireVal
  wireKwargs : List (String × WireVal)
deriving DecidableEq, Repr

/-- Modelled from the spec: `_internal_rpc_pickler.serialize` (the RPC pickler
in `rpc/internal.py`, outside the source slice) pickles the `PythonUDF` while
factoring every tensor buffer out of the generic stream into an ordered
side-channel list transmitted alongside the pickled payload. -/
def serialize (udf : PythonUDF) : SerializedUdf × List Nat :=
  let r1 := liftArgs udf.args []
  let r2 := liftKwargs udf.kwargs r1.2
  ({ funcBlob := udf.func.fid, wireArgs := r1.1, wireKwargs := r2.1 }, r2.2)

/-- An RPC request as handed to the agent by `_invoke_rpc_builtin` /
`_invoke_rpc_python_udf`: the builtin path carries only the symbolic
qualified name with the raw arguments, the UDF path carries the pickled
payload plus the tensor side-channel. -/
inductive RpcCall
  | builtin (dst : WorkerInfo) (qualifiedName : String)
      (args : List Value) (kwargs : List (String × Value))
  | pythonUdf (dst : WorkerInfo) (payload : SerializedUdf) (tensors : List Nat)
deriving DecidableEq, Repr

/-- The eventual outcome of an in-flight call: a value or a remote error. -/
inductive Outcome
  | value (v : Value)
  | err (kind : String) (msg : String)
deriving DecidableEq, Repr

/-- The RPC agent (external C++ object): its own identity, the worker
directory, and an oracle assigning each dispatched call its eventual
outcome (the network and the remote side, abstracted). -/
structure Agent where
  selfInfo : WorkerInfo
  namedInfo : String → WorkerInfo
  complete : RpcCall → Outcome

/-- The module-level mutable state of `api.py`: the process-wide `_agent`
global, plus whether the RRef context and the python RPC handler are still
alive (torn down by `wait_all_workers`). -/
structure RpcModuleState where
  _agent : Option Agent
  rrefContextAlive : Bool
  pyHandlerAlive : Bool

/-- Observable events, in program order. -/
inductive Ev
  | serializeUdf (f : Func) (args : List Value) (kwargs : List (String × Value))
  | sendBuiltin (dst : WorkerInfo) (qualifiedName : String)
      (args : List Value) (kwargs : List (String × Value))
  | sendUdf (dst : WorkerInfo) (payload : SerializedUdf) (tensors : List Nat)
  | sendRemoteBuiltin (dst : WorkerInfo) (qualifiedName : String)
      (args : List Value) (kwargs : List (String × Value))
  | sendRemoteUdf (dst : WorkerInfo) (payload : SerializedUdf) (tensors : List Nat)
  | futureWait (c : RpcCall)
  | agentJoin
  | dropAgentRef
  | destroyRrefContext
  | cleanupPyHandler
  | agentStarted (name : String)
deriving DecidableEq, Repr

/-- Python errors raised by the facade. -/
inductive PyError
  | runtimeError (msg : String)
  | typeError (msg : String)
  | valueError (msg : String)
  | remoteError (kind : String) (msg : String)
deriving DecidableEq, Repr

/-- The message of the `_require_initialized` decorator's RuntimeError. -/
def notInitializedMsg : String :=
  "RPC has not been initialized. Call torch.distributed.rpc.init_rpc first."

/-- A `torch.distributed.FutureMessage` as returned by the invoke primitives:
the call it correlates with and its eventual outcome (resolved by the agent's
receive loop, abstracted here as the agent's completion oracle). -/
structure FutureMessage where
  call : RpcCall
  outcome : Outcome
deriving DecidableEq, Repr

/-- Embeds `FutureMessage.wait()`: blocks until the outcome is available, returning
the value or re-raising the remote error locally.  The blocking observation
is recorded as a `futureWait` event. -/
def FutureMessage.wait (fut : FutureMessage) : Except PyError Value × List Ev :=
  (match fut.outcome with
   | .value v => .ok v
   | .err kind msg => .error (.remoteError kind msg),
   [.futureWait fut.call])

/-- Modelled from the spec: the `_invoke_rpc_builtin` extension primitive
(agent `sendRequest` for a builtin call) transmits only the symbolic
qualified name and the raw args/kwargs and returns the Future immediately. -/
def _invoke_rpc_builtin (ag : Agent) (dst : WorkerInfo) (qualifiedName : String)
    (args : List Value) (kwargs : List (String × Value)) : FutureMessage × List Ev :=
  let c := RpcCall.builtin dst qualifiedName args kwargs
  ({ call := c, outcome := ag.complete c }, [.sendBuiltin dst qualifiedName args kwargs])

/-- Modelled from the spec: the `_invoke_rpc_python_udf` extension primitive
transmits the pickled `PythonUDF` payload together with the ordered tensor
side-channel and returns the Future immediately. -/
def _invoke_rpc_python_udf (ag : Agent) (dst : WorkerInfo) (payload : SerializedUdf)
    (tensors : List Nat) : FutureMessage × List Ev :=
  let c := RpcCall.pythonUdf dst payload tensors
  ({ call := c, outcome := ag.complete c }, [.sendUdf dst payload tensors])

/-- A remote-creation request as handed to `_invoke_remote_builtin` /
`_invoke_remote_python_udf`. -/
inductive RemoteCall
  | builtin (dst : WorkerInfo) (qualifiedName : String)
      (args : List Value) (kwargs : List (String × Value))
  | pythonUdf (dst : WorkerInfo) (payload : SerializedUdf) (tensors : List Nat)
deriving DecidableEq, Repr

/-- The user-side RRef returned by `remote`, wrapping the issued request. -/
structure UserRRef where
  rcall : RemoteCall
deriving DecidableEq, Repr

/-- Modelled from the spec: the `_invoke_remote_builtin` extension primitive
issues a RemoteCreate request carrying only the symbolic qualified name and
the raw args/kwargs, returning a user RRef. -/
def _invoke_remote_builtin (dst : WorkerInfo) (qualifiedName : String)
    (args : List Value) (kwargs : List (String × Value)) : UserRRef × List Ev :=
  (⟨.builtin dst qualifiedName args kwargs⟩,
   [.sendRemoteBuiltin dst qualifiedName args kwargs])

/-- Modelled from the spec: the `_invoke_remote_python_udf` extension
primitive issues a RemoteCreate request carrying the pickled payload and the
ordered tensor side-channel, returning a user RRef. -/
def _invoke_remote_python_udf (dst : WorkerInfo) (payload : SerializedUdf)
    (tensors : List Nat) : UserRRef × List Ev :=
  (⟨.pythonUdf dst payload tensors⟩, [.sendRemoteUdf dst payload tensors])

/-- Embeds `args = args if args else ()`: an absent or empty (falsy) tuple becomes
the empty tuple. -/
def defaultArgs : Option (List Value) → List Value
  | none => []
  | some l => l

/-- Embeds the kwargs default: an absent or empty (falsy) dict becomes the
empty dict. -/
def defaultKwargs : Option (List (String × Value)) → List (String × Value)
  | none => []
  | some l => l

/-- Embeds `get_worker_info(worker_name=None)` (decorated with
`_require_initialized`): a truthy `worker_name` (Python truthiness: not
`None` and not the empty string) is looked up in the agent's worker
directory; a falsy one returns the current worker's info. -/
def get_worker_info (st : RpcModuleState) (worker_name : Option String) :
    Except PyError WorkerInfo :=
  match st._agent with
  | none => .error (.runtimeError notInitializedMsg)
  | some ag =>
      match worker_name with
      | some s => if s = "" then .ok ag.selfInfo else .ok (ag.namedInfo s)
      | none => .ok ag.selfInfo

/-- The runtime type of the `to` argument: a `WorkerInfo`, a `str`, or
anything else (which `_to_worker_info` rejects). -/
inductive NameOrInfo
  | info (w : WorkerInfo)
  | name (s : String)
  | invalid
deriving Repr

/-- Embeds `_to_worker_info(name_or_info)`. -/
def _to_worker_info (st : RpcModuleState) (name_or_info : NameOrInfo) :
    Except PyError WorkerInfo :=
  match name_or_info with
  | .info w => .ok w
  | .name s => get_worker_info st (some s)
  | .invalid => .error (.valueError "Cannot get WorkerInfo from name")

/-- Embeds `_invoke_rpc(to, func, args, kwargs)`: checks `callable(func)`, resolves
the builtin qualified name, applies the argument defaults, resolves the
destination, then dispatches on the builtin or the pickled-UDF path.  The
`none` agent branch is unreachable through the public API (all callers are
decorated with `_require_initialized`). -/
def _invoke_rpc (st : RpcModuleState) (toArg : NameOrInfo) (func : Func)
    (args : Option (List Value)) (kwargs : Option (List (String × Value))) :
    Except PyError FutureMessage × List Ev :=
  if !func.isCallable then
    (.error (.typeError "function should be callable."), [])
  else
    let qualified_name := _find_builtin func
    let args' := defaultArgs args
    let kwargs' := defaultKwargs kwargs
    match _to_worker_info st toArg with
    | .error e => (.error e, [])
    | .ok info =>
        match st._agent with
        | none => (.error (.runtimeError notInitializedMsg), [])
        | some ag =>
            match qualified_name with
            | some qn =>
                let (fut, tr) := _invoke_rpc_builtin ag info qn args' kwargs'
                (.ok fut, tr)
            | none =>
                let pr := serialize ⟨func, args', kwargs'⟩
                let (fut, tr) := _invoke_rpc_python_udf ag info pr.1 pr.2
                (.ok fut, .serializeUdf func args' kwargs' :: tr)

/-- Embeds `remote(to, func, args, kwargs)` (decorated with `_require_initialized`):
no callability check; resolves the builtin name, applies defaults, resolves
the destination, then issues the RemoteCreate request on the builtin or the
pickled-UDF path. -/
def remote (st : RpcModuleState) (toArg : NameOrInfo) (func : Func)
    (args : Option (List Value)) (kwargs : Option (List (String × Value))) :
    Except PyError UserRRef × List Ev :=
  match st._agent with
  | none => (.error (.runtimeError notInitializedMsg), [])
  | some _ =>
      let qualified_name := _find_builtin func
      let args' := defaultArgs args
      let kwargs' := defaultKwargs kwargs
      match _to_worker_info st toArg with
      | .error e => (.error e, [])
      | .ok info =>
          match qualified_name with
          | some qn =>
              let (rref, tr) := _invoke_remote_builtin info qn args' kwargs'
              (.ok rref, tr)
          | none =>
              let pr := serialize ⟨func, args', kwargs'⟩
              let (rref, tr) := _invoke_remote_python_udf info pr.1 pr.2
              (.ok rref, .serializeUdf func args' kwargs' :: tr)

/-- Embeds `rpc_async(to, func, args, kwargs)` (decorated with
`_require_initialized`): `fut = _invoke_rpc(...)` and return it, without
waiting. -/
def rpc_async (st : RpcModuleState) (toArg : NameOrInfo) (func : Func)
    (args : Option (List Value)) (kwargs : Option (List (String × Value))) :
    Except PyError FutureMessage × List Ev :=
  match st._agent with
  | none => (.error (.runtimeError notInitializedMsg), [])
  | some _ => _invoke_rpc st toArg func args kwargs

/-- Embeds `rpc_sync(to, func, args, kwargs)` (decorated with
`_require_initialized`): `fut = _invoke_rpc(...); return fut.wait()`. -/
def rpc_sync (st : RpcModuleState) (toArg : NameOrInfo) (func : Func)
    (args : Option (List Value)) (kwargs : Option (List (String × Value))) :
    Except PyError Value × List Ev :=
  match st._agent with
  | none => (.error (.runtimeError notInitializedMsg), [])
  | some _ =>
      match _invoke_rpc st toArg func args kwargs with
      | (.error e, tr) => (.error e, tr)
      | (.ok fut, tr) =>
          let (r, trw) := fut.wait
          (r, tr ++ trw)

/-- Embeds `wait_all_workers()`: with an agent present, `_agent.join()`, then
`_agent = None`, then `_destroy_rref_context()`, then
`_cleanup_python_rpc_handler()` — exactly in that program order, recorded in
the trace.  With no agent (`if _agent:` falsy) it does nothing, raising no
error. -/
def wait_all_workers (st : RpcModuleState) : List Ev × RpcModuleState :=
  match st._agent with
  | some _ =>
      ([.agentJoin, .dropAgentRef, .destroyRrefContext, .cleanupPyHandler],
       { _agent := none, rrefContextAlive := false, pyHandlerAlive := false })
  | none => ([], st)

/-- The runtime type of one argument to `_init_rpc_backend`, as far as the
`isinstance` checks can distinguish it. -/
inductive PyArg
  | backendType
  | storeObj
  | pyStr (s : String)
  | pyInt (n : Int)
  | agentOptions
  | pyNone
  | otherObj
deriving DecidableEq, Repr

/-- Embeds `isinstance(x, backend_registry.BackendType)`. -/
def isBackendType : PyArg → Bool
  | .backendType => true
  | _ => false

/-- Embeds `isinstance(x, dist.Store)`. -/
def isStore : PyArg → Bool
  | .storeObj => true
  | _ => false

/-- Embeds `isinstance(x, str)`. -/
def isStr : PyArg → Bool
  | .pyStr _ => true
  | _ => false

/-- Embeds `isinstance(x, numbers.Integral)`. -/
def isIntegral : PyArg → Bool
  | .pyInt _ => true
  | _ => false

/-- Embeds `isinstance(x, RpcAgentOptions)`. -/
def isAgentOptions : PyArg → Bool
  | .agentOptions => true
  | _ => false

/-- The string payload of a `pyStr` argument (defined once the `isinstance`
check for `str` has passed). -/
def pyStrVal : PyArg → String
  | .pyStr s => s
  | _ => ""

/-- Modelled from the spec: `backend_registry.init_backend` (outside the
source slice) constructs the Agent from the validated parameters;
`_start_rpc_agent` then starts it. -/
def init_backend (name : PyArg) (rank : PyArg) : Agent :=
  { selfInfo :=
      { id := (match rank with | .pyInt n => n.toNat | _ => 0),
        name := pyStrVal name },
    namedInfo := fun s => { id := 0, name := s },
    complete := fun _ => .err "RemoteExecutionError" "unspecified" }

/-- Embeds `_init_rpc_backend(backend, store, name, rank, world_size,
rpc_agent_options)`: the `isinstance` checks in source order, each raising a
RuntimeError; then the double-initialization guard; then agent construction
and start.  Returns the success/error outcome, the resulting module state,
and the trace (the `sys.version_info` guard is vacuous on Python 3 and
omitted). -/
def _init_rpc_backend (backend store name rank world_size rpc_agent_options : PyArg)
    (st : RpcModuleState) : Except PyError Unit × RpcModuleState × List Ev :=
  if !isBackendType backend then
    (.error (.runtimeError "`backend` must be a `backend_registry.BackendType`."), st, [])
  else if !isStore store then
    (.error (.runtimeError "`store` must be a `c10d::Store`."), st, [])
  else if !isStr name then
    (.error (.runtimeError "`name` must be a string."), st, [])
  else if !isIntegral rank then
    (.error (.runtimeError "`rank` must be an integer."), st, [])
  else if !isIntegral world_size then
    (.error (.runtimeError "`world_size` must be an integer."), st, [])
  else if !isAgentOptions rpc_agent_options then
    (.error (.runtimeError "`rpc_agent_options` must be an `RpcAgentOptions`."), st, [])
  else
    match st._agent with
    | some _ => (.error (.runtimeError "RPC is already initialized"), st, [])
    | none =>
        (.ok (),
         { st with _agent := some (init_backend name rank) },
         [.agentStarted (pyStrVal name)])

/-! ## Concrete sample objects, used by the witness theorems -/

/-- A sample destination worker. -/
def worker1 : WorkerInfo := { id := 1, name := "worker1" }

/-- A sample agent for the current worker. -/
def sampleAgent : Agent :=
  { selfInfo := { id := 0, name := "worker0" },
    namedInfo := fun s => { id := 1, name := s },
    complete := fun _ => .value (.num 0) }

/-- An initialized module state. -/
def stUp : RpcModuleState :=
  { _agent := some sampleAgent, rrefContextAlive := true, pyHandlerAlive := true }

/-- The module state before `init_rpc`. -/
def stDown : RpcModuleState :=
  { _agent := none, rrefContextAlive := true, pyHandlerAlive := true }

/-- A builtin function (`torch.jit._find_builtin` resolves it). -/
def addBuiltin : Func := { fid := 10, builtinName := some "aten::add", isCallable := true }

/-- A user-defined function (no builtin name). -/
def userFunc : Func := { fid := 11, builtinName := none, isCallable := true }

/-- A non-callable object passed where a function is expected. -/
def notAFunction : Func := { fid := 12, builtinName := none, isCallable := false }

/-! ## Helper lemmas about the tensor side-channel -/

/-- The side-channel produced by lifting an argument list extends the
accumulator with exactly the tensor buffers of the list, in order. -/
theorem liftArgs_tensors (vs : List Value) (acc : List Nat) :
    (liftArgs vs acc).2 = acc ++ tensorBuffers vs := by
  induction vs generalizing acc with
  | nil => simp [liftArgs, tensorBuffers]
  | cons v vs ih =>
      cases v <;> simp [liftArgs, liftValue, tensorBuffers, ih, List.filterMap_cons]

/-- Same for keyword arguments: the side-channel records the tensor buffers
of the values, in order. -/
theorem liftKwargs_tensors (ps : List (String × Value)) (acc : List Nat) :
    (liftKwargs ps acc).2 = acc ++ tensorBuffers (ps.map Prod.snd) := by
  induction ps generalizing acc with
  | nil => simp [liftKwargs, tensorBuffers]
  | cons p ps ih =>
      obtain ⟨key, v⟩ := p
      cases v <;> simp [liftKwargs, liftValue, tensorBuffers, ih, List.filterMap_cons]

/-- The RPC pickler's side-channel is exactly the ordered list of tensor
buffers of the positional then the keyword arguments. -/
theorem serialize_tensors (udf : PythonUDF) :
    (serialize udf).2 =
      tensorBuffers udf.args ++ tensorBuffers (udf.kwargs.map Prod.snd) := by
  simp [serialize, liftArgs_tensors, liftKwargs_tensors]

/-! ## Claim theorems -/

/-- C2: for every state, destination, function, args and kwargs, `rpc_sync`
returns exactly what issuing the same request through `rpc_async` and then
waiting on the returned Future produces — the same value or the same error,
with the wait observed after the send. -/
theorem rpc_sync_is_rpc_async_then_wait (st : RpcModuleState) (toArg : NameOrInfo)
    (func : Func) (args : Option (List Value))
    (kwargs : Option (List (String × Value))) :
    rpc_sync st toArg func args kwargs =
      match rpc_async st toArg func args kwargs with
      | (.ok fut, tr) => ((FutureMessage.wait fut).1, tr ++ (FutureMessage.wait fut).2)
      | (.error e, tr) => (.error e, tr) := by
  unfold rpc_sync rpc_async
  cases hag : st._agent with
  | none => rfl
  | some ag =>
      rcases h : _invoke_rpc st toArg func args kwargs with ⟨r, tr⟩
      cases r <;> simp [FutureMessage.wait]

/-- C7: teardown is idempotent — running `wait_all_workers` on the state left
by a previous `wait_all_workers` performs no teardown step (empty trace, so
no error is raised) and leaves the state exactly as the first call left it. -/
theorem wait_all_workers_idempotent (st : RpcModuleState) :
    wait_all_workers (wait_all_workers st).2 = ([], (wait_all_workers st).2) := by
  rcases st with ⟨ag, r, p⟩
  cases ag <;> rfl

/-- C3 counterexample: `wait_all_workers` has no `_require_initialized`
guard; called before `init_rpc` (agent absent) it returns normally as a
silent no-op — empty trace, state unaltered — instead of failing with the
not-initialized error. -/
theorem wait_all_workers_before_init_is_silent_noop :
    wait_all_workers stDown = ([], stDown) := rfl

/-- C3 amended: before `init_rpc` (no agent), `get_worker_info`, `rpc_sync`,
`rpc_async` and `remote` all fail locally with the not-initialized
RuntimeError (doing nothing else — empty trace), while `wait_all_workers`
is a silent no-op rather than an error. -/
theorem facade_calls_before_init (st : RpcModuleState) (h : st._agent = none) :
    (∀ wn, get_worker_info st wn = .error (.runtimeError notInitializedMsg)) ∧
    (∀ (toArg : NameOrInfo) (func : Func) (args : Option (List Value))
        (kwargs : Option (List (String × Value))),
      rpc_sync st toArg func args kwargs
          = (.error (.runtimeError notInitializedMsg), []) ∧
      rpc_async st toArg func args kwargs
          = (.error (.runtimeError notInitializedMsg), []) ∧
      remote st toArg func args kwargs
          = (.error (.runtimeError notInitializedMsg), [])) ∧
    wait_all_workers st = ([], st) := by
  refine ⟨fun wn => ?_, fun toArg func args kwargs => ⟨?_, ?_, ?_⟩, ?_⟩ <;>
    simp [get_worker_info, rpc_sync, rpc_async, remote, wait_all_workers, h]

/-- C3 witness: concrete instance of `facade_calls_before_init`. -/
theorem facade_calls_before_init_witness :
    rpc_sync stDown (.info worker1) addBuiltin none none
      = (.error (.runtimeError notInitializedMsg), []) :=
  ((facade_calls_before_init stDown rfl).2.1 (.info worker1) addBuiltin none none).1

/-- C6 counterexample: on an initialized state the teardown trace of
`wait_all_workers` is join, drop-agent-reference, destroy-RRef-context,
cleanup-python-handler — the agent reference is dropped *before* the two
context teardowns, not after them as the claim states. -/
theorem wait_all_workers_order_counterexample :
    (wait_all_workers stUp).1
        = [.agentJoin, .dropAgentRef, .destroyRrefContext, .cleanupPyHandler] ∧
    [Ev.agentJoin, .dropAgentRef, .destroyRrefContext, .cleanupPyHandler]
        ≠ [Ev.agentJoin, .destroyRrefContext, .cleanupPyHandler, .dropAgentRef] :=
  ⟨rfl, by decide⟩

/-- C6 amended: with an agent present, `wait_all_workers` performs exactly:
agent `join()`, then drops the process-wide agent reference, then destroys
the RRef context, then cleans up the python RPC handler, ending with no
agent and both contexts torn down. -/
theorem wait_all_workers_order (st : RpcModuleState) (ag : Agent)
    (h : st._agent = some ag) :
    wait_all_workers st =
      ([.agentJoin, .dropAgentRef, .destroyRrefContext, .cleanupPyHandler],
       { _agent := none, rrefContextAlive := false, pyHandlerAlive := false }) := by
  simp [wait_all_workers, h]

/-- C6 witness: concrete instance of `wait_all_workers_order`. -/
theorem wait_all_workers_order_witness :
    wait_all_workers stUp =
      ([.agentJoin, .dropAgentRef, .destroyRrefContext, .cleanupPyHandler],
       { _agent := none, rrefContextAlive := false, pyHandlerAlive := false }) :=
  wait_all_workers_order stUp sampleAgent rfl

/-- C4: whenever any of the six `isinstance` checks of `_init_rpc_backend`
fails, the call raises a RuntimeError synchronously: the result is an error,
the module state (in particular the agent) is unchanged, and the trace is
empty — no agent is constructed or started. -/
theorem init_rpc_backend_type_errors
    (backend store name rank world_size rpc_agent_options : PyArg)
    (st : RpcModuleState)
    (h : isBackendType backend = false ∨ isStore store = false ∨
         isStr name = false ∨ isIntegral rank = false ∨
         isIntegral world_size = false ∨ isAgentOptions rpc_agent_options = false) :
    ∃ msg, _init_rpc_backend backend store name rank world_size rpc_agent_options st
      = (.error (.runtimeError msg), st, []) := by
  cases hb : isBackendType backend <;> cases hs : isStore store <;>
    cases hn : isStr name <;> cases hr : isIntegral rank <;>
      cases hw : isIntegral world_size <;>
        cases ho : isAgentOptions rpc_agent_options
  all_goals try simp [_init_rpc_backend, hb, hs, hn, hr, hw, ho]
  simp [hb, hs, hn, hr, hw, ho] at h

/-- C4 witness: concrete instance of `init_rpc_backend_type_errors` with a
`None` store. -/
theorem init_rpc_backend_type_errors_witness :
    ∃ msg, _init_rpc_backend .backendType .pyNone (.pyStr "worker0")
        (.pyInt 0) (.pyInt 2) .agentOptions stDown
      = (.error (.runtimeError msg), stDown, []) :=
  init_rpc_backend_type_errors .backendType .pyNone (.pyStr "worker0")
    (.pyInt 0) (.pyInt 2) .agentOptions stDown (Or.inr (Or.inl rfl))

/-- C5: a second `_init_rpc_backend` with well-typed arguments while an agent
already exists fails with the already-initialized RuntimeError, leaving the
module state — and hence the existing agent — unchanged, with an empty trace
(no second agent is constructed or started). -/
theorem init_rpc_backend_double_init
    (backend store name rank world_size rpc_agent_options : PyArg)
    (st : RpcModuleState) (ag : Agent) (hag : st._agent = some ag)
    (hb : isBackendType backend = true) (hs : isStore store = true)
    (hn : isStr name = true) (hr : isIntegral rank = true)
    (hw : isIntegral world_size = true)
    (ho : isAgentOptions rpc_agent_options = true) :
    _init_rpc_backend backend store name rank world_size rpc_agent_options st
      = (.error (.runtimeError "RPC is already initialized"), st, []) := by
  simp [_init_rpc_backend, hb, hs, hn, hr, hw, ho, hag]

/-- C5 witness: concrete instance of `init_rpc_backend_double_init`. -/
theorem init_rpc_backend_double_init_witness :
    _init_rpc_backend .backendType .storeObj (.pyStr "worker0")
        (.pyInt 0) (.pyInt 2) .agentOptions stUp
      = (.error (.runtimeError "RPC is already initialized"), stUp, []) :=
  init_rpc_backend_double_init .backendType .storeObj (.pyStr "worker0")
    (.pyInt 0) (.pyInt 2) .agentOptions stUp sampleAgent rfl rfl rfl rfl rfl rfl rfl

/-- Recognizes the blocking `futureWait` observation in a trace. -/
def isWaitEv : Ev → Bool
  | .futureWait _ => true
  | _ => false

/-- Lemma: `_invoke_rpc` never waits — no trace it produces contains a `futureWait`
event. -/
theorem invoke_rpc_no_wait (st : RpcModuleState) (toArg : NameOrInfo)
    (func : Func) (args : Option (List Value))
    (kwargs : Option (List (String × Value))) :
    ((_invoke_rpc st toArg func args kwargs).2.all fun e => !isWaitEv e) = true := by
  unfold _invoke_rpc
  cases hc : func.isCallable
  · simp
  · simp only [Bool.not_true, Bool.false_eq_true, if_false]
    cases hw : _to_worker_info st toArg with
    | error e => simp
    | ok info =>
        cases hag : st._agent with
        | none => simp
        | some ag =>
            cases hq : _find_builtin func <;>
              simp [_invoke_rpc_builtin, _invoke_rpc_python_udf, isWaitEv]

/-- C8: with the agent initialized, `rpc_async` returns exactly the Future
produced by `_invoke_rpc` (the issued request), and its trace contains no
`futureWait` event — it never blocks on completion; only the caller can
wait on the returned Future. -/
theorem rpc_async_returns_without_waiting (st : RpcModuleState) (ag : Agent)
    (toArg : NameOrInfo) (func : Func) (args : Option (List Value))
    (kwargs : Option (List (String × Value))) (hag : st._agent = some ag) :
    rpc_async st toArg func args kwargs = _invoke_rpc st toArg func args kwargs ∧
    ∀ c, Ev.futureWait c ∉ (rpc_async st toArg func args kwargs).2 := by
  have heq : rpc_async st toArg func args kwargs
      = _invoke_rpc st toArg func args kwargs := by
    simp [rpc_async, hag]
  refine ⟨heq, fun c hc => ?_⟩
  rw [heq] at hc
  have hall := invoke_rpc_no_wait st toArg func args kwargs
  rw [List.all_eq_true] at hall
  have := hall _ hc
  simp [isWaitEv] at this

/-- C8 witness: concrete instance of `rpc_async_returns_without_waiting`. -/
theorem rpc_async_returns_without_waiting_witness :
    rpc_async stUp (.info worker1) addBuiltin none none
      = _invoke_rpc stUp (.info worker1) addBuiltin none none :=
  (rpc_async_returns_without_waiting stUp sampleAgent (.info worker1)
    addBuiltin none none rfl).1

/-- C9: with the agent initialized and a non-callable `func`, `rpc_sync` and
`rpc_async` raise the TypeError locally with an empty trace — before
resolving the destination (the statement holds for every `toArg`, including
the invalid one that would otherwise raise ValueError) and before
serializing anything — while `remote` performs no callability check: on the
very same non-callable `func` it proceeds directly to builtin lookup and
serialization, returning the dispatched RRef instead of a TypeError. -/
theorem callable_check_sync_async_not_remote (st : RpcModuleState) (ag : Agent)
    (toArg : NameOrInfo) (func : Func) (args : Option (List Value))
    (kwargs : Option (List (String × Value)))
    (hag : st._agent = some ag) (hfn : func.isCallable = false) :
    rpc_sync st toArg func args kwargs
        = (.error (.typeError "function should be callable."), []) ∧
    rpc_async st toArg func args kwargs
        = (.error (.typeError "function should be callable."), []) ∧
    ∀ dst, _to_worker_info st toArg = .ok dst →
      (remote st toArg func args kwargs).1 =
        .ok { rcall :=
          match _find_builtin func with
          | some qn => .builtin dst qn (defaultArgs args) (defaultKwargs kwargs)
          | none => .pythonUdf dst
              (serialize ⟨func, defaultArgs args, defaultKwargs kwargs⟩).1
              (serialize ⟨func, defaultArgs args, defaultKwargs kwargs⟩).2 } := by
  refine ⟨?_, ?_, fun dst hdst => ?_⟩
  · simp [rpc_sync, _invoke_rpc, hag, hfn]
  · simp [rpc_async, _invoke_rpc, hag, hfn]
  · cases hq : _find_builtin func <;>
      simp [remote, hag, hdst, hq, _invoke_remote_builtin, _invoke_remote_python_udf]

/-- C9 witness: concrete instance of `callable_check_sync_async_not_remote`,
with an invalid destination — the TypeError still precedes destination
resolution. -/
theorem callable_check_witness :
    rpc_sync stUp .invalid notAFunction none none
      = (.error (.typeError "function should be callable."), []) :=
  (callable_check_sync_async_not_remote stUp sampleAgent .invalid notAFunction
    none none rfl rfl).1

/-- C10: after initialization, `get_worker_info` returns the current
worker's info for every falsy `worker_name` — both `None` and the empty
string — and looks the name up in the agent's directory only when it is
truthy (a non-empty string). -/
theorem get_worker_info_falsy_name (st : RpcModuleState) (ag : Agent)
    (hag : st._agent = some ag) :
    get_worker_info st none = .ok ag.selfInfo ∧
    get_worker_info st (some "") = .ok ag.selfInfo ∧
    ∀ s, s ≠ "" → get_worker_info st (some s) = .ok (ag.namedInfo s) := by
  refine ⟨by simp [get_worker_info, hag], by simp [get_worker_info, hag],
    fun s hs => by simp [get_worker_info, hag, hs]⟩

/-- C10 witness: concrete instance of `get_worker_info_falsy_name` at the
empty string. -/
theorem get_worker_info_falsy_name_witness :
    get_worker_info stUp (some "") = .ok sampleAgent.selfInfo :=
  (get_worker_info_falsy_name stUp sampleAgent rfl).2.1

/-- C1: with the agent initialized and the destination resolved, a call whose
function `torch.jit._find_builtin` resolves is dispatched through the builtin
path — through `_invoke_rpc` (shared by `rpc_sync`/`rpc_async`) and through
`remote` — carrying only the symbolic qualified name and the raw
args/kwargs, with no serialization event; otherwise the function with its
arguments is pickled as a `PythonUDF` whose side-channel is exactly the
ordered list of tensor buffers of the positional then keyword arguments,
transmitted alongside the pickled payload. -/
theorem dispatch_builtin_vs_python_udf (st : RpcModuleState) (ag : Agent)
    (toArg : NameOrInfo) (dst : WorkerInfo) (func : Func)
    (args : Option (List Value)) (kwargs : Option (List (String × Value)))
    (hag : st._agent = some ag)
    (hto : _to_worker_info st toArg = .ok dst) :
    (∀ qn, _find_builtin func = some qn →
      (func.isCallable = true →
        _invoke_rpc st toArg func args kwargs =
          (.ok { call := .builtin dst qn (defaultArgs args) (defaultKwargs kwargs),
                 outcome := ag.complete
                   (.builtin dst qn (defaultArgs args) (defaultKwargs kwargs)) },
           [.sendBuiltin dst qn (defaultArgs args) (defaultKwargs kwargs)])) ∧
      remote st toArg func args kwargs =
        (.ok ⟨.builtin dst qn (defaultArgs args) (defaultKwargs kwargs)⟩,
         [.sendRemoteBuiltin dst qn (defaultArgs args) (defaultKwargs kwargs)])) ∧
    (_find_builtin func = none →
      (func.isCallable = true →
        _invoke_rpc st toArg func args kwargs =
          (.ok { call := .pythonUdf dst
                   (serialize ⟨func, defaultArgs args, defaultKwargs kwargs⟩).1
                   (serialize ⟨func, defaultArgs args, defaultKwargs kwargs⟩).2,
                 outcome := ag.complete (.pythonUdf dst
                   (serialize ⟨func, defaultArgs args, defaultKwargs kwargs⟩).1
                   (serialize ⟨func, defaultArgs args, defaultKwargs kwargs⟩).2) },
           [.serializeUdf func (defaultArgs args) (defaultKwargs kwargs),
            .sendUdf dst
              (serialize ⟨func, defaultArgs args, defaultKwargs kwargs⟩).1
              (serialize ⟨func, defaultArgs args, defaultKwargs kwargs⟩).2])) ∧
      remote st toArg func args kwargs =
        (.ok ⟨.pythonUdf dst
           (serialize ⟨func, defaultArgs args, defaultKwargs kwargs⟩).1
           (serialize ⟨func, defaultArgs args, defaultKwargs kwargs⟩).2⟩,
         [.serializeUdf func (defaultArgs args) (defaultKwargs kwargs),
          .sendRemoteUdf dst
            (serialize ⟨func, defaultArgs args, defaultKwargs kwargs⟩).1
            (serialize ⟨func, defaultArgs args, defaultKwargs kwargs⟩).2]) ∧
      (serialize ⟨func, defaultArgs args, defaultKwargs kwargs⟩).2 =
        tensorBuffers (defaultArgs args)
          ++ tensorBuffers ((defaultKwargs kwargs).map Prod.snd)) := by
  constructor
  · intro qn hqn
    constructor
    · intro hc
      simp [_invoke_rpc, hc, hto, hag, hqn, _invoke_rpc_builtin]
    · simp [remote, hag, hto, hqn, _invoke_remote_builtin]
  · intro hqn
    refine ⟨?_, ?_, serialize_tensors _⟩
    · intro hc
      simp [_invoke_rpc, hc, hto, hag, hqn, _invoke_rpc_python_udf]
    · simp [remote, hag, hto, hqn, _invoke_remote_python_udf]

/-- C1 witness: concrete builtin dispatch — `torch.add` on a tensor and a
number is sent by symbolic name with the raw arguments. -/
theorem dispatch_builtin_vs_python_udf_witness :
    _invoke_rpc stUp (.info worker1) addBuiltin (some [.tensor 5, .num 3]) none
      = (.ok { call := .builtin worker1 "aten::add" [.tensor 5, .num 3] [],
               outcome := sampleAgent.complete
                 (.builtin worker1 "aten::add" [.tensor 5, .num 3] []) },
         [.sendBuiltin worker1 "aten::add" [.tensor 5, .num 3] []]) :=
  ((dispatch_builtin_vs_python_udf stUp sampleAgent (.info worker1) worker1
      addBuiltin (some [.tensor 5, .num 3]) none rfl rfl).1 "aten::add" rfl).1 rfl

end TorchRpcApi
